import Mathlib

/-!
Shallow embedding of the session-bootstrap and command-dispatch state machine
of `src/main.py` (class `MultiAccountBot`), together with theorems checking the
claims of the specification about it.

The embedding models:
- Python `str.split(sep)` (single-character separator, keeping empty segments),
  `str.startswith`, and `int(...)` parsing;
- the persistent `config.json` record (`Config`);
- the in-memory bot state (`BotState`: config, `begin_process`, the per-run
  handshake token `timestamp`);
- the external collaborators (joined-room set and history retrieval) as a
  `World` record;
- each side effect the bot performs as an `Effect` value, and the three ways a
  callback can finish (`Outcome`): normal return, `SystemExit`, or an uncaught
  exception.
-/

namespace MatrixBot

/-- Model of Python `s.split(sep)` for a one-character separator, on character
lists: split at every occurrence of the separator, keeping empty segments. -/
def splitCh (sep : Char) : List Char → List (List Char)
  | [] => [[]]
  | c :: cs =>
    if c = sep then [] :: splitCh sep cs
    else
      match splitCh sep cs with
      | [] => [[c]]
      | w :: ws => (c :: w) :: ws

/-- Python `s.split(sep)` on strings (one-character separator). -/
def pySplit (s : String) (sep : Char) : List String :=
  (splitCh sep s.data).map (fun w => ⟨w⟩)

/-- Auxiliary character-list test: does the second list start with the first? -/
def strStarts : List Char → List Char → Bool
  | [], _ => true
  | _ :: _, [] => false
  | p :: ps, c :: cs => p = c && strStarts ps cs

/-- Python `s.startswith(p)`. -/
def pyStartsWith (s p : String) : Bool := strStarts p.data s.data

/-- Numeric value of a digit list (most significant first). -/
def digVal (cs : List Char) : Nat := cs.foldl (fun a c => a * 10 + (c.toNat - 48)) 0

/-- Python `str.strip()` on a character list: drop whitespace at both ends. -/
def pyStrip (cs : List Char) : List Char :=
  ((cs.dropWhile (fun c => c.isWhitespace)).reverse.dropWhile
    (fun c => c.isWhitespace)).reverse

/-- Model of Python `int(s)` on text: optional surrounding whitespace, optional
sign, then a nonempty digit string; `none` models `int` raising `ValueError`. -/
def pyInt (s : String) : Option Int :=
  match pyStrip s.data with
  | [] => none
  | '-' :: rest =>
    if rest.isEmpty then none
    else if rest.all (fun c => c.isDigit) then some (-(digVal rest : Int)) else none
  | '+' :: rest =>
    if rest.isEmpty then none
    else if rest.all (fun c => c.isDigit) then some ((digVal rest : Int)) else none
  | cs =>
    if cs.all (fun c => c.isDigit) then some ((digVal cs : Int)) else none

/-- The persistent `config.json` record: exactly the keys the program reads or
writes (`ADMIN_SPACE`, `CONTROL_ROOM`, `LAST_TIMESTAMP`); an absent key is
`none`. -/
structure Config where
  admin_space : Option String
  control_room : Option String
  last_timestamp : Option Nat
deriving DecidableEq

/-- The watermark the callback compares against: `config.get("LAST_TIMESTAMP", 0)`. -/
def watermark (c : Config) : Nat := c.last_timestamp.getD 0

/-- An incoming `RoomMessageText` event as seen by `message_callback`. -/
structure Event where
  room : String
  body : String
  server_timestamp : Nat
deriving DecidableEq

/-- The environment variables the callback reads (`environ["LOG_ROOM"]`). -/
structure Env where
  log_room : String
deriving DecidableEq

/-- One event returned by history retrieval (`room_messages(...).chunk`):
whether `str(type(message))` classifies it as a `RoomMessage` subtype, and its
original `source["content"]`. -/
structure HistEvent where
  is_room_message : Bool
  content : String
deriving DecidableEq

/-- The external protocol collaborator as the callback consults it: the set of
joined rooms, and `room_messages(room, limit)` returning either an error
message (`RoomMessagesError`) or the chunk of events. -/
structure World where
  joined : List String
  history : String → Int → String ⊕ List HistEvent

/-- In-memory state of the bot: the config record, the `begin_process` flag and
the handshake token `self.timestamp` of this run. -/
structure BotState where
  config : Config
  begin_process : Bool
  timestamp : Int
deriving DecidableEq

/-- One observable side effect of the bot. `log room msg` is a `self.log(msg)`
call directed at `room` (the timestamp prefix and local print are omitted);
`send` is a raw `room_send` of forwarded content; `persist c` is
`json.dump` of `c` to `config.json`. -/
inductive Effect where
  | log (room : String) (message : String)
  | send (room : String) (content : String)
  | close
  | persist (config : Config)
  | createRoom (name : String) (isSpace : Bool)
  | putState (room : String) (eventType : String) (stateKey : String)
  | invite (room : Option String) (user : String)
deriving DecidableEq

/-- How a callback or routine finishes: normal return, `raise SystemExit(code)`,
or an uncaught exception propagating out. -/
inductive Outcome where
  | ok
  | exited (code : Nat)
  | exn (message : String)
deriving DecidableEq

/-- The command section of `message_callback` (lines 145-200 of `src/main.py`):
reached only for events in the control room whose body starts with `"!"`.
Returns the effects in program order, the new state, and the outcome. -/
def dispatch (env : Env) (w : World) (st : BotState) (event : Event) :
    List Effect × BotState × Outcome :=
  let body := event.body
  let e1 : List Effect := if body = "!ping" then [Effect.log event.room "Pong!"] else []
  if body = "!exit" then
    let cfg := { st.config with last_timestamp := some event.server_timestamp }
    (e1 ++ [Effect.log event.room "Exiting...",
            Effect.log env.log_room "--- END OF BOT LOG ---",
            Effect.close,
            Effect.persist cfg],
     { st with config := cfg }, Outcome.exited 0)
  else if pyStartsWith body "!crawl" = true then
    let args := pySplit body ' '
    if args.length ≠ 3 then
      (e1 ++ [Effect.log event.room "Invalid arguments. Expected: !crawl <room_id> <num_messages>"],
       st, Outcome.ok)
    else
      let room_id := args.getD 1 ""
      match pyInt (args.getD 2 "") with
      | none => (e1, st, Outcome.exn "ValueError")
      | some num_messages =>
        if room_id ∈ w.joined then
          let e2 := e1 ++ [Effect.log event.room
            ("Crawling " ++ toString num_messages ++ " messages from " ++ room_id)]
          match w.history room_id num_messages with
          | Sum.inl err =>
            (e2 ++ [Effect.log event.room ("Error getting messages: " ++ err)], st, Outcome.ok)
          | Sum.inr chunk =>
            (e2 ++ (chunk.filter (fun m => m.is_room_message)).map
               (fun m => Effect.send env.log_room m.content), st, Outcome.ok)
        else (e1 ++ [Effect.log event.room "Not in room"], st, Outcome.ok)
  else
    (e1 ++ [Effect.log event.room "Invalid command. Available commands: !ping, !exit, !crawl"],
     st, Outcome.ok)

/-- `MultiAccountBot.message_callback` (lines 122-200 of `src/main.py`):
watermark suppression, handshake-marker recognition, `begin_process` gate,
then command dispatch. -/
def message_callback (env : Env) (w : World) (st : BotState) (event : Event) :
    List Effect × BotState × Outcome :=
  let body := event.body
  if event.server_timestamp < watermark st.config then ([], st, Outcome.ok)
  else if pyStartsWith body "Timestamp:" = true ∧ (pySplit body ' ').length = 2 ∧
      event.room = env.log_room then
    match pyInt ((pySplit body ' ').getD 1 "") with
    | none => ([], st, Outcome.ok)
    | some ts =>
      if ts = st.timestamp then
        ([Effect.log env.log_room "Timestamp verified, starting process..."],
         { st with
            config := { st.config with last_timestamp := some event.server_timestamp },
            begin_process := true }, Outcome.ok)
      else ([], st, Outcome.ok)
  else if st.begin_process = false then ([], st, Outcome.ok)
  else if st.config.control_room = some event.room ∧ pyStartsWith body "!" = true then
    dispatch env w st event
  else ([], st, Outcome.ok)

/-- The sync loop: feed events to `message_callback` in order; a `SystemExit`
or an uncaught exception stops the loop, so no later event is dispatched. -/
def runEvents (env : Env) (w : World) : BotState → List Event → List Effect × BotState × Outcome
  | st, [] => ([], st, Outcome.ok)
  | st, e :: rest =>
    match message_callback env w st e with
    | (effs, st', Outcome.ok) =>
      match runEvents env w st' rest with
      | (effs2, st'', out2) => (effs ++ effs2, st'', out2)
    | (effs, st', out) => (effs, st', out)

/-- Python truthiness of an optional string (`config.get(k)` / `environ.get(k)`
used as a condition): `None` and the empty string are falsy. -/
def pyTruthy (o : Option String) : Bool :=
  match o with
  | none => false
  | some s => !(s.isEmpty)

/-- Responses of the protocol collaborator consumed by `_initialize_spaces`:
the space-creation result (error message or new room id), the `room_id` of the created control
room (`none` models an absent id, tripping the assert), and the
`event_id` of the child-link state write (`none` trips the assert). -/
structure ProvisionWorld where
  create_space : String ⊕ String
  create_control : Option String
  child_link_event : Option String

/-- `MultiAccountBot._initialize_spaces` (lines 34-88 of `src/main.py`):
create the admin space, record its id, create the control room as a child,
link and rename the log room. Failed space creation logs and raises
`SystemExit(1)`; a failed assert is an `AssertionError`; a space id without a
`:` makes `split(":")[1]` raise `IndexError`. -/
def initialize_spaces (env : Env) (pw : ProvisionWorld) (config : Config) :
    List Effect × Config × Outcome :=
  match pw.create_space with
  | Sum.inl err =>
    ([Effect.createRoom "Admin Space" true,
      Effect.log env.log_room ("Error creating room: " ++ err)], config, Outcome.exited 1)
  | Sum.inr space_id =>
    let effs0 := [Effect.createRoom "Admin Space" true,
                  Effect.log env.log_room ("Created space with ID " ++ space_id)]
    let cfg1 := { config with admin_space := some space_id }
    if (pySplit space_id ':').length < 2 then (effs0, cfg1, Outcome.exn "IndexError")
    else
      let effs1 := effs0 ++ [Effect.createRoom "Control Room" false]
      match pw.create_control with
      | none => (effs1, cfg1, Outcome.exn "AssertionError")
      | some room_id =>
        let effs2 := effs1 ++ [Effect.putState space_id "m.space.child" room_id]
        match pw.child_link_event with
        | none => (effs2, cfg1, Outcome.exn "AssertionError")
        | some _ =>
          let cfg2 := { cfg1 with control_room := some room_id }
          (effs2 ++ [Effect.log env.log_room ("Created control room with ID " ++ room_id),
                     Effect.putState space_id "m.space.child" env.log_room,
                     Effect.putState env.log_room "m.room.name" ""],
           cfg2, Outcome.ok)

/-- The effects `start` performs after the provisioning gate (lines 105-117 of
`src/main.py`): the optional controller invitation, then the handshake marker
message sent to the log room. -/
def start_effects_after (env : Env) (config : Config) (controller : Option String)
    (tok : Int) : List Effect :=
  (if pyTruthy controller then [Effect.invite config.admin_space (controller.getD "")]
   else []) ++
  [Effect.send env.log_room ("Timestamp: " ++ toString tok)]

/-- `MultiAccountBot.start` up to entering the sync loop (lines 99-120 of
`src/main.py`): run `_initialize_spaces` exactly when `ADMIN_SPACE` is absent
from (or empty in) the loaded config, then invite the controller if configured
and broadcast the handshake token. The login print is a local-only effect and
is omitted. -/
def start_step (env : Env) (pw : ProvisionWorld) (config : Config)
    (controller : Option String) (tok : Int) : List Effect × Config × Outcome :=
  if pyTruthy config.admin_space = false then
    match initialize_spaces env pw config with
    | (effs, cfg', Outcome.ok) =>
      (Effect.log env.log_room "Creating admin space..." :: effs
        ++ start_effects_after env cfg' controller tok, cfg', Outcome.ok)
    | (effs, cfg', out) =>
      (Effect.log env.log_room "Creating admin space..." :: effs, cfg', out)
  else (start_effects_after env config controller tok, config, Outcome.ok)

/-- Is an effect a config flush (`json.dump` to `config.json`)? -/
def isPersistEff : Effect → Bool
  | Effect.persist _ => true
  | _ => false

/-- Is an effect a room-creation request? -/
def isCreateRoomEff : Effect → Bool
  | Effect.createRoom _ _ => true
  | _ => false

/-- Is an effect a forwarded-content send (the crawl forwarding path)? -/
def isSendEff : Effect → Bool
  | Effect.send _ _ => true
  | _ => false

/-- The handshake marker of this run: a message in the log room whose body
starts with `"Timestamp:"`, splits into exactly two space-separated tokens,
and whose second token parses to the own token of this run. -/
def isOwnMarker (env : Env) (st : BotState) (e : Event) : Prop :=
  pyStartsWith e.body "Timestamp:" = true ∧ (pySplit e.body ' ').length = 2 ∧
  e.room = env.log_room ∧ pyInt ((pySplit e.body ' ').getD 1 "") = some st.timestamp

/-! Concrete fixtures used by witnesses and counterexamples. -/

/-- Sample environment: the log room id. -/
def sampleEnv : Env := ⟨"!log:srv"⟩

/-- Sample history chunk of three room messages. -/
def sampleChunk : List HistEvent := [⟨true, "alpha"⟩, ⟨true, "beta"⟩, ⟨true, "gamma"⟩]

/-- Sample external world: one joined target room whose history (for limit 3)
is `sampleChunk`. -/
def sampleWorld : World :=
  ⟨["!target:srv"],
   fun r n => if r = "!target:srv" ∧ n = 3 then Sum.inr sampleChunk else Sum.inl "unknown"⟩

/-- Sample loaded config with all keys present. -/
def sampleConfig : Config := ⟨some "!sp:srv", some "!ctl:srv", some 100⟩

/-- Sample state after the handshake has completed (token 42). -/
def sampleSt : BotState := ⟨sampleConfig, true, 42⟩

/-- Sample state before the handshake has completed (token 42). -/
def sampleStFresh : BotState := ⟨sampleConfig, false, 42⟩

/-- Sample responses for a fully successful provisioning run. -/
def goodProvision : ProvisionWorld := ⟨Sum.inr "!sp:srv", some "!ctl:srv", some "ev1"⟩

/-- A config as loaded on very first startup (`config.json` absent). -/
def emptyConfig : Config := ⟨none, none, none⟩

/-! Helper lemmas. -/

theorem strStarts_elim {p : Char} {ps cs : List Char} (h : strStarts (p :: ps) cs = true) :
    ∃ cs', cs = p :: cs' ∧ strStarts ps cs' = true := by
  cases cs with
  | nil => exact absurd h (by simp [strStarts])
  | cons c cs' =>
    have h1 : p = c ∧ strStarts ps cs' = true := by simpa [strStarts] using h
    exact ⟨cs', by rw [h1.1], h1.2⟩

theorem strStarts_head_ne {a b : Char} {ps qs cs : List Char} (hab : b ≠ a)
    (h : strStarts (a :: ps) cs = true) : strStarts (b :: qs) cs = false := by
  obtain ⟨cs', rfl, _⟩ := strStarts_elim h
  simp [strStarts, hab]

theorem bang_of_crawl {s : String} (h : pyStartsWith s "!crawl" = true) :
    pyStartsWith s "!" = true := by
  have h' : strStarts ('!' :: "crawl".data) s.data = true := h
  obtain ⟨cs', hcs, _⟩ := strStarts_elim h'
  show strStarts ('!' :: ([] : List Char)) s.data = true
  rw [hcs]
  simp [strStarts]

theorem not_timestamp_of_bang {s : String} (h : pyStartsWith s "!" = true) :
    pyStartsWith s "Timestamp:" = false := by
  have h' : strStarts ('!' :: ([] : List Char)) s.data = true := h
  show strStarts ('T' :: "imestamp:".data) s.data = false
  exact strStarts_head_ne (by decide) h'

/-- Reduction of `message_callback` to `dispatch` for an admitted control-room
`!`-command after the handshake. -/
theorem message_callback_dispatch (env : Env) (w : World) (st : BotState) (e : Event)
    (hwm : watermark st.config ≤ e.server_timestamp)
    (hbp : st.begin_process = true)
    (hcr : st.config.control_room = some e.room)
    (hbang : pyStartsWith e.body "!" = true) :
    message_callback env w st e = dispatch env w st e := by
  have hts := not_timestamp_of_bang hbang
  unfold message_callback
  rw [if_neg (by omega)]
  rw [if_neg (by simp [hts])]
  rw [if_neg (by simp [hbp])]
  rw [if_pos ⟨hcr, hbang⟩]

/-- Reduction of `dispatch` on the exit command. -/
theorem dispatch_exit (env : Env) (w : World) (st : BotState) (e : Event)
    (hbody : e.body = "!exit") :
    dispatch env w st e =
      ([Effect.log e.room "Exiting...",
        Effect.log env.log_room "--- END OF BOT LOG ---",
        Effect.close,
        Effect.persist { st.config with last_timestamp := some e.server_timestamp }],
       { st with config := { st.config with last_timestamp := some e.server_timestamp } },
       Outcome.exited 0) := by
  unfold dispatch
  rw [hbody]
  have h1 : ("!exit" : String) ≠ "!ping" := by decide
  simp [h1]

/-! Claim theorems. -/

/-- Claim C1: the claim says an admitted post-handshake control-room `!ping` emits
exactly one log effect (`"Pong!"`, directed at the control room) and no other
effect. The code instead falls through to the `else` of the `!crawl` check
(the branches are separate `if`s, not `elif`), so `!ping` additionally emits
the invalid-command usage log — two effects, the second of which itself lists
`!ping` as an available command. This theorem evaluates the code at the
failing input. -/
theorem C1_ping_double_effect :
    message_callback sampleEnv sampleWorld sampleSt ⟨"!ctl:srv", "!ping", 200⟩ =
      ([Effect.log "!ctl:srv" "Pong!",
        Effect.log "!ctl:srv" "Invalid command. Available commands: !ping, !exit, !crawl"],
       sampleSt, Outcome.ok) := rfl

/-- Claim C4: an admitted control-room `!exit` produces, in order, the exit-notice
log, the sign-off log, the close-session effect, and a config-persist effect
whose record carries the server timestamp of the triggering event as new watermark,
then terminates with exit code 0; and running the loop on `e :: rest` stops at
`e`, so no later event is dispatched. -/
theorem C4_exit_sequence (env : Env) (w : World) (st : BotState) (e : Event)
    (rest : List Event)
    (hwm : watermark st.config ≤ e.server_timestamp)
    (hbp : st.begin_process = true)
    (hcr : st.config.control_room = some e.room)
    (hbody : e.body = "!exit") :
    message_callback env w st e =
      ([Effect.log e.room "Exiting...",
        Effect.log env.log_room "--- END OF BOT LOG ---",
        Effect.close,
        Effect.persist { st.config with last_timestamp := some e.server_timestamp }],
       { st with config := { st.config with last_timestamp := some e.server_timestamp } },
       Outcome.exited 0) ∧
    runEvents env w st (e :: rest) =
      ([Effect.log e.room "Exiting...",
        Effect.log env.log_room "--- END OF BOT LOG ---",
        Effect.close,
        Effect.persist { st.config with last_timestamp := some e.server_timestamp }],
       { st with config := { st.config with last_timestamp := some e.server_timestamp } },
       Outcome.exited 0) := by
  have hbang : pyStartsWith e.body "!" = true := by rw [hbody]; decide
  have h1 := (message_callback_dispatch env w st e hwm hbp hcr hbang).trans
    (dispatch_exit env w st e hbody)
  refine ⟨h1, ?_⟩
  unfold runEvents
  rw [h1]

/-- Claim C4 witness: concrete admitted `!exit` event followed by a pending `!ping`
event that is never dispatched. -/
theorem C4_exit_sequence_witness :
    message_callback sampleEnv sampleWorld sampleSt ⟨"!ctl:srv", "!exit", 200⟩ =
      ([Effect.log "!ctl:srv" "Exiting...",
        Effect.log "!log:srv" "--- END OF BOT LOG ---",
        Effect.close,
        Effect.persist ⟨some "!sp:srv", some "!ctl:srv", some 200⟩],
       ⟨⟨some "!sp:srv", some "!ctl:srv", some 200⟩, true, 42⟩,
       Outcome.exited 0) ∧
    runEvents sampleEnv sampleWorld sampleSt
        [⟨"!ctl:srv", "!exit", 200⟩, ⟨"!ctl:srv", "!ping", 300⟩] =
      ([Effect.log "!ctl:srv" "Exiting...",
        Effect.log "!log:srv" "--- END OF BOT LOG ---",
        Effect.close,
        Effect.persist ⟨some "!sp:srv", some "!ctl:srv", some 200⟩],
       ⟨⟨some "!sp:srv", some "!ctl:srv", some 200⟩, true, 42⟩,
       Outcome.exited 0) :=
  C4_exit_sequence sampleEnv sampleWorld sampleSt ⟨"!ctl:srv", "!exit", 200⟩
    [⟨"!ctl:srv", "!ping", 300⟩] (by decide) rfl rfl rfl

/-- Claim C5: any event whose server timestamp is strictly below the watermark
(`LAST_TIMESTAMP`, defaulting to 0 when absent) is suppressed: no effect, no
state change, normal return. -/
theorem C5_watermark_suppression (env : Env) (w : World) (st : BotState) (e : Event)
    (h : e.server_timestamp < watermark st.config) :
    message_callback env w st e = ([], st, Outcome.ok) := by
  unfold message_callback
  rw [if_pos h]

/-- Claim C5 witness: a stale control-room command (timestamp 50 below watermark 100)
produces nothing. -/
theorem C5_watermark_suppression_witness :
    message_callback sampleEnv sampleWorld sampleSt ⟨"!ctl:srv", "!ping", 50⟩ =
      ([], sampleSt, Outcome.ok) :=
  C5_watermark_suppression sampleEnv sampleWorld sampleSt ⟨"!ctl:srv", "!ping", 50⟩
    (by decide)

/-- Claim C6: while `begin_process` is still false, every event that is not the
handshake marker carrying the own token of this run — including syntactically valid
control-room commands — produces no effect and no state change (dropped, not
queued). -/
theorem C6_prehandshake_suppression (env : Env) (w : World) (st : BotState) (e : Event)
    (hbp : st.begin_process = false)
    (hm : ¬ isOwnMarker env st e) :
    message_callback env w st e = ([], st, Outcome.ok) := by
  unfold message_callback
  by_cases h1 : e.server_timestamp < watermark st.config
  · rw [if_pos h1]
  · rw [if_neg h1]
    by_cases h2 : pyStartsWith e.body "Timestamp:" = true ∧ (pySplit e.body ' ').length = 2 ∧
        e.room = env.log_room
    · rw [if_pos h2]
      cases hpi : pyInt ((pySplit e.body ' ').getD 1 "") with
      | none => rfl
      | some ts =>
        by_cases h3 : ts = st.timestamp
        · exact absurd ⟨h2.1, h2.2.1, h2.2.2, h3 ▸ hpi⟩ hm
        · simp [h3]
    · rw [if_neg h2, if_pos hbp]

/-- Claim C6 witness: a syntactically valid control-room `!ping` arriving before the
handshake completes is silently dropped. -/
theorem C6_prehandshake_suppression_witness :
    message_callback sampleEnv sampleWorld sampleStFresh ⟨"!ctl:srv", "!ping", 200⟩ =
      ([], sampleStFresh, Outcome.ok) :=
  C6_prehandshake_suppression sampleEnv sampleWorld sampleStFresh
    ⟨"!ctl:srv", "!ping", 200⟩ rfl (by unfold isOwnMarker; decide)

/-- Claim C10: every log-room message whose body starts with `"Timestamp:"` and has
exactly two space-separated tokens is consumed by the handshake check — the
result is either full suppression or the marker verification, never command
dispatch, even after the session has started; and when its token does not
parse to the own token of this run it produces no effect and leaves the state
(including `begin_process` and `LAST_TIMESTAMP`) unchanged. -/
theorem C10_marker_consumed (env : Env) (w : World) (st : BotState) (e : Event)
    (hts : pyStartsWith e.body "Timestamp:" = true)
    (hlen : (pySplit e.body ' ').length = 2)
    (hroom : e.room = env.log_room) :
    (message_callback env w st e = ([], st, Outcome.ok) ∨
     message_callback env w st e =
       ([Effect.log env.log_room "Timestamp verified, starting process..."],
        { st with
            config := { st.config with last_timestamp := some e.server_timestamp },
            begin_process := true }, Outcome.ok)) ∧
    (pyInt ((pySplit e.body ' ').getD 1 "") ≠ some st.timestamp →
      message_callback env w st e = ([], st, Outcome.ok)) := by
  unfold message_callback
  by_cases h1 : e.server_timestamp < watermark st.config
  · rw [if_pos h1]
    exact ⟨Or.inl rfl, fun _ => rfl⟩
  · rw [if_neg h1, if_pos ⟨hts, hlen, hroom⟩]
    cases hpi : pyInt ((pySplit e.body ' ').getD 1 "") with
    | none => exact ⟨Or.inl rfl, fun _ => rfl⟩
    | some ts =>
      by_cases h3 : ts = st.timestamp
      · exact ⟨Or.inr (by simp [h3]), fun hne => absurd (congrArg some h3) hne⟩
      · exact ⟨Or.inl (by simp [h3]), fun _ => by simp [h3]⟩

/-- Claim C10 witness: a marker-shaped body with a wrong token, received after the
session started, produces no effect and changes nothing. -/
theorem C10_marker_consumed_witness :
    message_callback sampleEnv sampleWorld sampleSt ⟨"!log:srv", "Timestamp: 41", 200⟩ =
      ([], sampleSt, Outcome.ok) :=
  (C10_marker_consumed sampleEnv sampleWorld sampleSt ⟨"!log:srv", "Timestamp: 41", 200⟩
    (by decide) (by decide) rfl).2 (by decide)

/-- Claim C2 counterexample: an admitted control-room `!crawl !target:srv abc` (two
arguments, non-integer count) emits zero usage-error log effects and raises an
uncaught `ValueError` out of the callback — not the single non-fatal
usage-error effect the claim requires. -/
theorem C2_counterexample :
    message_callback sampleEnv sampleWorld sampleSt
        ⟨"!ctl:srv", "!crawl !target:srv abc", 200⟩ =
      ([], sampleSt, Outcome.exn "ValueError") := rfl

/-- Claim C2 as amended: for an admitted control-room `!crawl` command, only the
argument-count validation produces a usage error: with an argument count other
than two there is exactly one usage-error log effect, no forwarding effect,
and a normal return; with exactly two arguments whose count does not parse as
an integer, `int(args[2])` raises an uncaught `ValueError` with no effect
emitted at all. -/
theorem C2_crawl_validation (env : Env) (w : World) (st : BotState) (e : Event)
    (hwm : watermark st.config ≤ e.server_timestamp)
    (hbp : st.begin_process = true)
    (hcr : st.config.control_room = some e.room)
    (hcrawl : pyStartsWith e.body "!crawl" = true) :
    ((pySplit e.body ' ').length ≠ 3 →
      message_callback env w st e =
        ([Effect.log e.room "Invalid arguments. Expected: !crawl <room_id> <num_messages>"],
         st, Outcome.ok)) ∧
    (∀ a0 a1 a2 : String, pySplit e.body ' ' = [a0, a1, a2] →
      pyInt a2 = none →
      message_callback env w st e = ([], st, Outcome.exn "ValueError")) := by
  have hbang := bang_of_crawl hcrawl
  have hmc := message_callback_dispatch env w st e hwm hbp hcr hbang
  have hne_ping : e.body ≠ "!ping" := by
    intro hq; rw [hq] at hcrawl; exact absurd hcrawl (by decide)
  have hne_exit : e.body ≠ "!exit" := by
    intro hq; rw [hq] at hcrawl; exact absurd hcrawl (by decide)
  constructor
  · intro hlen
    rw [hmc]
    unfold dispatch
    simp [hne_ping, hne_exit, hcrawl, hlen]
  · intro a0 a1 a2 hsplit hpi
    rw [hmc]
    unfold dispatch
    simp [hne_ping, hne_exit, hcrawl, hsplit, hpi]

/-- Claim C2 witness: `!crawl x` (one argument) yields exactly the usage-error
effect; `!crawl !target:srv abc` (non-integer count) raises `ValueError`. -/
theorem C2_crawl_validation_witness :
    message_callback sampleEnv sampleWorld sampleSt ⟨"!ctl:srv", "!crawl x", 200⟩ =
      ([Effect.log "!ctl:srv" "Invalid arguments. Expected: !crawl <room_id> <num_messages>"],
       sampleSt, Outcome.ok) ∧
    message_callback sampleEnv sampleWorld sampleSt
        ⟨"!ctl:srv", "!crawl !target:srv abc", 200⟩ =
      ([], sampleSt, Outcome.exn "ValueError") :=
  ⟨(C2_crawl_validation sampleEnv sampleWorld sampleSt ⟨"!ctl:srv", "!crawl x", 200⟩
      (by decide) rfl rfl (by decide)).1 (by decide),
   (C2_crawl_validation sampleEnv sampleWorld sampleSt
      ⟨"!ctl:srv", "!crawl !target:srv abc", 200⟩
      (by decide) rfl rfl (by decide)).2 "!crawl" "!target:srv" "abc"
      (by decide) (by decide)⟩

/-- Claim C8: an admitted control-room `!crawl <roomId> <n>` whose target room is
joined and whose history retrieval returns `n` events, all classified as room
messages, forwards exactly those `n` contents into the log room, in the order
returned and unmodified (preceded only by the progress log in the control
room); the number of forwarding effects is exactly `n`. -/
theorem C8_crawl_forwards (env : Env) (w : World) (st : BotState) (e : Event)
    (r cstr : String) (k : Nat) (chunk : List HistEvent)
    (hwm : watermark st.config ≤ e.server_timestamp)
    (hbp : st.begin_process = true)
    (hcr : st.config.control_room = some e.room)
    (hcrawl : pyStartsWith e.body "!crawl" = true)
    (hsplit : pySplit e.body ' ' = ["!crawl", r, cstr])
    (hn : pyInt cstr = some ((k : Nat) : Int))
    (hjoined : r ∈ w.joined)
    (hhist : w.history r ((k : Nat) : Int) = Sum.inr chunk)
    (hlen : chunk.length = k)
    (hmsg : ∀ m ∈ chunk, m.is_room_message = true) :
    message_callback env w st e =
      (Effect.log e.room ("Crawling " ++ toString ((k : Nat) : Int) ++ " messages from " ++ r)
         :: chunk.map (fun m => Effect.send env.log_room m.content),
       st, Outcome.ok) ∧
    ((message_callback env w st e).1.filter isSendEff).length = k := by
  have hbang := bang_of_crawl hcrawl
  have hmc := message_callback_dispatch env w st e hwm hbp hcr hbang
  have hne_ping : e.body ≠ "!ping" := by
    intro hq; rw [hq] at hcrawl; exact absurd hcrawl (by decide)
  have hne_exit : e.body ≠ "!exit" := by
    intro hq; rw [hq] at hcrawl; exact absurd hcrawl (by decide)
  have hfilter : chunk.filter (fun m => m.is_room_message) = chunk := by
    rw [List.filter_eq_self]; simpa using hmsg
  have hmain : message_callback env w st e =
      (Effect.log e.room ("Crawling " ++ toString ((k : Nat) : Int) ++ " messages from " ++ r)
         :: chunk.map (fun m => Effect.send env.log_room m.content),
       st, Outcome.ok) := by
    rw [hmc]
    unfold dispatch
    simp [hne_ping, hne_exit, hcrawl, hsplit, hn, hjoined, hhist, hfilter]
  refine ⟨hmain, ?_⟩
  rw [hmain]
  have hsends : (chunk.map (fun m => Effect.send env.log_room m.content)).filter isSendEff =
      chunk.map (fun m => Effect.send env.log_room m.content) := by
    rw [List.filter_eq_self]
    intro a ha
    obtain ⟨m, _, rfl⟩ := List.mem_map.1 ha
    rfl
  simp [List.filter, isSendEff, hsends, hlen]

/-- Claim C8 witness: `!crawl !target:srv 3` against a joined room with three stored
room messages forwards exactly the three contents, in order, into the log
room. -/
theorem C8_crawl_forwards_witness :
    message_callback sampleEnv sampleWorld sampleSt
        ⟨"!ctl:srv", "!crawl !target:srv 3", 200⟩ =
      ([Effect.log "!ctl:srv" "Crawling 3 messages from !target:srv",
        Effect.send "!log:srv" "alpha",
        Effect.send "!log:srv" "beta",
        Effect.send "!log:srv" "gamma"],
       sampleSt, Outcome.ok) ∧
    ((message_callback sampleEnv sampleWorld sampleSt
        ⟨"!ctl:srv", "!crawl !target:srv 3", 200⟩).1.filter isSendEff).length = 3 :=
  C8_crawl_forwards sampleEnv sampleWorld sampleSt
    ⟨"!ctl:srv", "!crawl !target:srv 3", 200⟩ "!target:srv" "3" 3 sampleChunk
    (by decide) rfl rfl (by decide) (by decide) (by decide) (by decide) (by decide)
    (by decide) (by decide)

/-- Provisioning emits no config flush. -/
theorem initialize_spaces_no_persist (env : Env) (pw : ProvisionWorld) (config : Config) :
    (initialize_spaces env pw config).1.filter isPersistEff = [] := by
  unfold initialize_spaces
  rcases pw.create_space with err | space_id
  · simp [isPersistEff]
  · by_cases hv : (pySplit space_id ':').length < 2
    · simp [hv, isPersistEff]
    · rcases hcc : pw.create_control with _ | room_id
      · simp [hv, hcc, isPersistEff]
      · rcases hcl : pw.child_link_event with _ | ev
        · simp [hv, hcc, hcl, isPersistEff]
        · simp [hv, hcc, hcl, isPersistEff]

/-- The post-gate startup effects contain no config flush. -/
theorem start_effects_after_no_persist (env : Env) (config : Config)
    (controller : Option String) (tok : Int) :
    (start_effects_after env config controller tok).filter isPersistEff = [] := by
  cases hc : pyTruthy controller <;> simp [start_effects_after, hc, isPersistEff]

/-- The whole startup sequence, provisioning included, emits no config flush. -/
theorem start_step_no_persist (env : Env) (pw : ProvisionWorld) (config : Config)
    (controller : Option String) (tok : Int) :
    (start_step env pw config controller tok).1.filter isPersistEff = [] := by
  unfold start_step
  by_cases hg : pyTruthy config.admin_space = false
  · rw [if_pos hg]
    have hip := initialize_spaces_no_persist env pw config
    rcases hi : initialize_spaces env pw config with ⟨effs, cfg', out⟩
    rw [hi] at hip
    cases out <;>
      simp_all [List.filter_append, isPersistEff, start_effects_after_no_persist]
  · rw [if_neg hg]
    exact start_effects_after_no_persist env config controller tok

/-- Claim C3 counterexample: on a first start (empty config) with fully successful
provisioning, the run completes normally and the learned room identifiers sit
in the in-memory config, yet not a single config flush is emitted — refuting
"flushed on successful completion of space provisioning". -/
theorem C3_counterexample :
    (start_step sampleEnv goodProvision emptyConfig none 42).2.2 = Outcome.ok ∧
    (start_step sampleEnv goodProvision emptyConfig none 42).2.1 =
      (⟨some "!sp:srv", some "!ctl:srv", none⟩ : Config) ∧
    (start_step sampleEnv goodProvision emptyConfig none 42).1.filter isPersistEff =
      [] := by decide

/-- Claim C3 as amended: the persistent Config is flushed to durable storage at
exactly one point — execution of the exit command, whose single flush records
the server timestamp of the triggering event; startup (space provisioning included)
never flushes, so the newly learned room identifiers reach storage only via a
later exit command. -/
theorem C3_persist_only_on_exit (env : Env) (pw : ProvisionWorld) (config : Config)
    (controller : Option String) (tok : Int)
    (w : World) (st : BotState) (e : Event)
    (hwm : watermark st.config ≤ e.server_timestamp)
    (hbp : st.begin_process = true)
    (hcr : st.config.control_room = some e.room)
    (hbody : e.body = "!exit") :
    (start_step env pw config controller tok).1.filter isPersistEff = [] ∧
    (message_callback env w st e).1.filter isPersistEff =
      [Effect.persist { st.config with last_timestamp := some e.server_timestamp }] := by
  refine ⟨start_step_no_persist env pw config controller tok, ?_⟩
  have hbang : pyStartsWith e.body "!" = true := by rw [hbody]; decide
  rw [message_callback_dispatch env w st e hwm hbp hcr hbang,
    dispatch_exit env w st e hbody]
  simp [isPersistEff]

/-- Claim C3 witness: concrete first start (no flush) and concrete exit command
(exactly one flush, carrying the timestamp of the event). -/
theorem C3_persist_only_on_exit_witness :
    (start_step sampleEnv goodProvision emptyConfig none 42).1.filter isPersistEff = [] ∧
    (message_callback sampleEnv sampleWorld sampleSt
        ⟨"!ctl:srv", "!exit", 200⟩).1.filter isPersistEff =
      [Effect.persist ⟨some "!sp:srv", some "!ctl:srv", some 200⟩] :=
  C3_persist_only_on_exit sampleEnv goodProvision emptyConfig none 42
    sampleWorld sampleSt ⟨"!ctl:srv", "!exit", 200⟩ (by decide) rfl rfl rfl

/-- The watermark never decreases across the command section. -/
theorem watermark_le_dispatch (env : Env) (w : World) (st : BotState) (e : Event)
    (h : watermark st.config ≤ e.server_timestamp) :
    watermark st.config ≤ watermark (dispatch env w st e).2.1.config := by
  unfold dispatch
  dsimp only
  repeat' split
  all_goals simp_all [watermark]

/-- The watermark never decreases across one callback invocation. -/
theorem watermark_le_callback (env : Env) (w : World) (st : BotState) (e : Event) :
    watermark st.config ≤ watermark (message_callback env w st e).2.1.config := by
  unfold message_callback
  dsimp only
  repeat' split
  all_goals try exact watermark_le_dispatch env w st e (by omega)
  all_goals simp_all [watermark]

/-- Claim C7: `LAST_TIMESTAMP` is non-decreasing across the process lifetime: after
feeding any sequence of events through the loop, the stored watermark is at
least the initial one (each update — handshake verification or exit — only
ever assigns the timestamp of the admitted event, which the watermark check has
bounded from below). -/
theorem C7_watermark_monotone (env : Env) (w : World) (st : BotState)
    (events : List Event) :
    watermark st.config ≤ watermark (runEvents env w st events).2.1.config := by
  induction events generalizing st with
  | nil => simp [runEvents]
  | cons e rest ih =>
    have h1 := watermark_le_callback env w st e
    unfold runEvents
    rcases hmc : message_callback env w st e with ⟨effs, st', out⟩
    rw [hmc] at h1
    cases out with
    | ok =>
      dsimp only
      have h2 := ih st'
      rcases hre : runEvents env w st' rest with ⟨effs2, st'', out2⟩
      rw [hre] at h2
      exact le_trans h1 h2
    | exited code => exact h1
    | exn msg => exact h1

/-- Startup with a recorded admin space performs no room creation. -/
theorem start_effects_after_no_create (env : Env) (config : Config)
    (controller : Option String) (tok : Int) :
    (start_effects_after env config controller tok).filter isCreateRoomEff = [] := by
  cases hc : pyTruthy controller <;> simp [start_effects_after, hc, isCreateRoomEff]

/-- Claim C9: provisioning is idempotent at the Config level: whenever the loaded
config already carries a (nonempty) administrative-space id, `start` skips
`_initialize_spaces` entirely — the run performs only the post-gate effects,
creates no room, and leaves the config unchanged. Since the gate looks only at
the loaded config, this holds at every process start, regardless of how many
restarts preceded it. -/
theorem C9_provision_idempotent (env : Env) (pw : ProvisionWorld) (config : Config)
    (controller : Option String) (tok : Int) (s : String)
    (hs : config.admin_space = some s) (hne : s ≠ "") :
    start_step env pw config controller tok =
      (start_effects_after env config controller tok, config, Outcome.ok) ∧
    (start_step env pw config controller tok).1.filter isCreateRoomEff = [] := by
  have hse : s.isEmpty = false := by
    rw [Bool.eq_false_iff]
    intro hc
    exact hne ((String.isEmpty_iff s).1 hc)
  have htruthy : pyTruthy config.admin_space = true := by
    rw [hs]
    simp [pyTruthy, hse]
  have hmain : start_step env pw config controller tok =
      (start_effects_after env config controller tok, config, Outcome.ok) := by
    unfold start_step
    rw [if_neg (by simp [htruthy])]
  exact ⟨hmain, by rw [hmain]; exact start_effects_after_no_create env config controller tok⟩

/-- Claim C9 witness: with `ADMIN_SPACE` present in the loaded config, startup
reduces to the post-gate effects and the provisioner is never entered. -/
theorem C9_provision_idempotent_witness :
    start_step sampleEnv goodProvision sampleConfig none 42 =
      (start_effects_after sampleEnv sampleConfig none 42, sampleConfig, Outcome.ok) :=
  (C9_provision_idempotent sampleEnv goodProvision sampleConfig none 42 "!sp:srv"
    rfl (by decide)).1

end MatrixBot
